import Mathlib

/-!
Shallow embedding of `src/PDFGenerator.ts` (MenvielleValen/pdf-kit-generator).

The repository is a single class `PDFGenerator` holding two mutable fields
(`data : string`, `pdfOptions : PDFOptions`) with methods
`setPdfOptions`, `fromContent`, `fromFile`, `generatePdf`,
`generateMultiPagePdf` and `mergePDFs`.

External collaborators (puppeteer, the filesystem, muhammara/hummus) are not
part of the repository; they are modelled abstractly at their interface
boundary: the filesystem is a function from paths to `Except`, the rendering
engine is a record of fallible steps, and a PDF buffer is either a decodable
document exposing its page list or an undecodable blob.  All state mutation
of the class is made explicit by threading a `PDFGenerator` value; a thrown
JavaScript exception is an `Except.error`, and where the class object
outlives the exception the error value carries the post-call state.
-/

set_option autoImplicit false

namespace PDFKit

/-- A JavaScript value appearing in a render-parameter object.  Only the
shape matters for the properties proved here. -/
inductive JSVal where
  | num (n : Int)
  | str (s : String)
  | bool (b : Bool)
  deriving DecidableEq, Repr

/-- A JavaScript object literal, as an insertion-ordered key/value list.
`{ a: 1, ...o }` is modelled as `("a", 1) :: o`; later entries override
earlier ones, which is captured by `objGet` below. -/
abbrev JSObj := List (String × JSVal)

/-- Key lookup in a `JSObj` with JavaScript object-literal semantics: the
binding written last wins. -/
def objGet : JSObj → String → Option JSVal
  | [], _ => none
  | (k, v) :: rest, key =>
    match objGet rest key with
    | some w => some w
    | none => if k = key then some v else none

/-- Truthiness of an optional string field, as JavaScript `if (x)` sees it:
`undefined` and the empty string are falsy. -/
def truthyStr : Option String → Bool
  | none => false
  | some s => !s.isEmpty

/-- Puppeteer `PDFOptions`, restricted to representative knobs.  The class
only ever stores and forwards this record, so the exact field set is
immaterial; several fields are kept so that wholesale replacement is
distinguishable from field-wise merging. -/
structure PDFOptions where
  format : Option String := none
  landscape : Option Bool := none
  printBackground : Option Bool := none
  deriving DecidableEq, Repr

/-- A PDF byte buffer, modelled at the interface of the document-editing
collaborator (spec §6): a decodable document exposes its ordered page list
(pages carry opaque identifiers); anything else is an undecodable blob. -/
inductive PDFBuffer where
  | valid (pages : List Nat)
  | invalid (raw : String)
  deriving DecidableEq, Repr

/-- Page list of a buffer (empty for an undecodable blob). -/
def PDFBuffer.pages : PDFBuffer → List Nat
  | .valid ps => ps
  | .invalid _ => []

/-- Whether the buffer is a decodable PDF document. -/
def PDFBuffer.isValid : PDFBuffer → Bool
  | .valid _ => true
  | .invalid _ => false

/-- A thrown JavaScript `Error`, reduced to its message. -/
structure GenError where
  message : String
  deriving DecidableEq, Repr

/-- The filesystem collaborator: `fs.promises.readFile(path, "utf-8")`
either yields the file text or rejects with an error (kept as its string
rendering, which is what the code interpolates into messages). -/
abbrev FS := String → Except String String

/-- The mutable state of a `PDFGenerator` instance: the HTML content to
render next and the current PDF options. -/
structure PDFGenerator where
  data : String
  pdfOptions : PDFOptions
  deriving DecidableEq, Repr

/-- TS: `constructor(format: PaperFormat = "A4") { this.data = ""; this.pdfOptions = { format }; }` -/
def PDFGenerator.new (format : String := "A4") : PDFGenerator :=
  { data := "", pdfOptions := { format := some format } }

/-- TS: `setPdfOptions(pdfOptions) { this.pdfOptions = pdfOptions; return this; }` -/
def PDFGenerator.setPdfOptions (pdfOptions : PDFOptions) (g : PDFGenerator) : PDFGenerator :=
  { g with pdfOptions := pdfOptions }

/-- TS: `fromContent(data) { this.data = data; return this; }` -/
def PDFGenerator.fromContent (data : String) (g : PDFGenerator) : PDFGenerator :=
  { g with data := data }

/-- The message built by `fromFile`'s catch clause:
`` `Error reading file at path: "${filePath}"\n${error}` ``. -/
def fromFileMsg (filePath err : String) : String :=
  "Error reading file at path: \"" ++ filePath ++ "\"\n" ++ err

/-- Method `fromFile(filePath)`: reads the file as UTF-8 text and only then assigns
`this.data`; on a read failure it rethrows a wrapping error whose message
embeds the path.  The error case carries the instance state as it stands
when the exception leaves the method. -/
def PDFGenerator.fromFile (fs : FS) (filePath : String) (g : PDFGenerator) :
    Except (GenError × PDFGenerator) PDFGenerator :=
  match fs filePath with
  | .ok fileContent => .ok { g with data := fileContent }
  | .error e => .error (⟨fromFileMsg filePath e⟩, g)

/-- Failure of the document-editing collaborator during a merge:
`createWriterToModify` has no base document to open, or some input is not a
decodable PDF. -/
inductive MergeError where
  | noBaseDocument
  | undecodable
  deriving DecidableEq, Repr

/-- Appends the pages of each buffer, in list order, onto the accumulated
base pages — the `forEach` of `appendPDFPagesFromPDF` calls in `mergePDFs`.
The collaborator throws on an undecodable source document. -/
def appendAll (basePages : List Nat) : List PDFBuffer → Except MergeError (List Nat)
  | [] => .ok basePages
  | b :: bs =>
    match b with
    | .valid ps => appendAll (basePages ++ ps) bs
    | .invalid _ => .error .undecodable

/-- Method `mergePDFs(buffers)`: destructures the first buffer, opens it as the base
document of a modify-writer (this throws before `buffers.shift()` runs when
there is no decodable base), then shifts the caller's array and appends every
remaining buffer's pages in order.  Returns the thrown-or-produced result
together with the caller's array as the method leaves it. -/
def mergePDFs (buffers : List PDFBuffer) : Except MergeError PDFBuffer × List PDFBuffer :=
  match buffers with
  | [] => (.error .noBaseDocument, buffers)
  | first :: rest =>
    match first with
    | .invalid _ => (.error .undecodable, buffers)
    | .valid basePages =>
      match appendAll basePages rest with
      | .ok allPages => (.ok (.valid allPages), rest)
      | .error e => (.error e, rest)

/-- The rendering-engine collaborator (puppeteer), at its interface boundary
(spec §6): each step the code awaits may reject with an error message, and
PDF production may depend on the loaded content, the options passed and the
injected parameter object. -/
structure Engine where
  launch : Except String Unit
  newPage : Except String Unit
  evaluate : JSObj → Except String Unit
  setContent : String → Except String Unit
  producePdf : String → PDFOptions → JSObj → Except String PDFBuffer
  close : Except String Unit

/-- The message built by `generatePdf`'s catch clause:
`` `Generate PDF Error: ${error.message || error}` ``. -/
def renderMsg (e : String) : String :=
  "Generate PDF Error: " ++ e

/-- Outcome of a `generatePdf` call, together with the fate of the
rendering-engine session: whether `puppeteer.launch` succeeded and whether
`browser.close()` was reached before the method exited. -/
structure RenderOutcome where
  result : Except GenError PDFBuffer
  sessionAcquired : Bool
  sessionReleased : Bool
  deriving Repr

/-- The default render-parameter object of `generatePdf`: `{ pageNumber: 1 }`. -/
def defaultProps : JSObj := [("pageNumber", JSVal.num 1)]

/-- Method `generatePdf(props)`: launch a browser, open a page, inject `props` into
the page context, load `this.data`, produce the PDF with `this.pdfOptions`,
close the browser and return the buffer.  The whole body sits in a
`try/catch` that rethrows a wrapping error; there is no `finally`, so
`browser.close()` runs only when every earlier step succeeded. -/
def PDFGenerator.generatePdf (eng : Engine) (g : PDFGenerator)
    (props : JSObj := defaultProps) : RenderOutcome :=
  match eng.launch with
  | .error e => ⟨.error ⟨renderMsg e⟩, false, false⟩
  | .ok _ =>
    match eng.newPage with
    | .error e => ⟨.error ⟨renderMsg e⟩, true, false⟩
    | .ok _ =>
      match eng.evaluate props with
      | .error e => ⟨.error ⟨renderMsg e⟩, true, false⟩
      | .ok _ =>
        match eng.setContent g.data with
        | .error e => ⟨.error ⟨renderMsg e⟩, true, false⟩
        | .ok _ =>
          match eng.producePdf g.data g.pdfOptions props with
          | .error e => ⟨.error ⟨renderMsg e⟩, true, false⟩
          | .ok buf =>
            match eng.close with
            | .error e => ⟨.error ⟨renderMsg e⟩, true, false⟩
            | .ok _ => ⟨.ok buf, true, true⟩

/-- Interface `IPageRenderData`: one page's render instructions in a multi-page job. -/
structure PageSpec where
  content : Option String := none
  templatePath : Option String := none
  pdfOptions : Option PDFOptions := none
  props : JSObj := []
  deriving Repr

/-- The parameter object `generateMultiPagePdf` builds for the page at
1-based index `i`: `{ pageNumber: i, ...page.props }` (spread last, so keys
of `props` override). -/
def pageProps (i : Nat) (spec : PageSpec) : JSObj :=
  ("pageNumber", JSVal.num i) :: spec.props

/-- The content-intake step of one loop iteration of `generateMultiPagePdf`:
`if (page.templatePath) await this.fromFile(...); else if (page.content)
this.data = page.content;` — JavaScript truthiness, so empty strings take
neither branch and stale state is reused. -/
def intakeStep (fs : FS) (spec : PageSpec) (g : PDFGenerator) :
    Except (GenError × PDFGenerator) PDFGenerator :=
  if truthyStr spec.templatePath then
    g.fromFile fs (spec.templatePath.getD "")
  else if truthyStr spec.content then
    .ok { g with data := spec.content.getD "" }
  else
    .ok g

/-- One render invocation `generateMultiPagePdf` made: the content loaded,
the options applied and the parameter object injected. -/
structure RenderCall where
  content : String
  options : PDFOptions
  props : JSObj
  deriving Repr

/-- Result of the page loop of `generateMultiPagePdf` before the surrounding
`catch`: the rendered buffers (or the first thrown error's message), the
instance state after the loop, and the trace of render invocations made. -/
structure LoopOut where
  buffers : Except String (List PDFBuffer)
  finalGen : PDFGenerator
  calls : List RenderCall

/-- The `for (const page of pageData)` loop of `generateMultiPagePdf`,
carrying the running 1-based counter `i`: intake, wholesale option
replacement via `setPdfOptions(page.pdfOptions || {})`, then one
`generatePdf({ pageNumber: i, ...page.props })`; the first thrown error
aborts the loop. -/
def multiLoop (eng : Engine) (fs : FS) (g : PDFGenerator) (i : Nat) :
    List PageSpec → LoopOut
  | [] => ⟨.ok [], g, []⟩
  | spec :: rest =>
    match intakeStep fs spec g with
    | .error (e, g') => ⟨.error e.message, g', []⟩
    | .ok g1 =>
      let g2 := g1.setPdfOptions (spec.pdfOptions.getD {})
      let call : RenderCall := ⟨g2.data, g2.pdfOptions, pageProps (i + 1) spec⟩
      match (g2.generatePdf eng (pageProps (i + 1) spec)).result with
      | .error e => ⟨.error e.message, g2, [call]⟩
      | .ok buf =>
        let out := multiLoop eng fs g2 (i + 1) rest
        ⟨out.buffers.map (buf :: ·), out.finalGen, call :: out.calls⟩

/-- The message built by `generateMultiPagePdf`'s catch clause:
`` `Generate Multi Page PDF Error: ${error.message || error}` ``. -/
def multiMsg (e : String) : String :=
  "Generate Multi Page PDF Error: " ++ e

/-- String rendering of the error the document-editing collaborator throws,
as it reaches `generateMultiPagePdf`'s catch clause. -/
def MergeError.message : MergeError → String
  | .noBaseDocument => "Unable to modify PDF file, make sure that output file target is not null and that input file exists"
  | .undecodable => "Unable to modify PDF file, make sure that output file target is not null and that input file exists"

/-- Result of `generateMultiPagePdf`: the returned buffer or the wrapped
error, the instance state afterwards, and the trace of render invocations. -/
structure MultiResult where
  result : Except GenError PDFBuffer
  finalGen : PDFGenerator
  calls : List RenderCall

/-- Method `generateMultiPagePdf(pageData)`: run the page loop, then merge the
collected buffers with `mergePDFs`; any error thrown inside is caught once
and rethrown with the `Generate Multi Page PDF Error:` wrapping. -/
def PDFGenerator.generateMultiPagePdf (eng : Engine) (fs : FS) (g : PDFGenerator)
    (pageData : List PageSpec) : MultiResult :=
  let out := multiLoop eng fs g 0 pageData
  match out.buffers with
  | .error m => ⟨.error ⟨multiMsg m⟩, out.finalGen, out.calls⟩
  | .ok bufs =>
    match mergePDFs bufs with
    | (.ok total, _) => ⟨.ok total, out.finalGen, out.calls⟩
    | (.error me, _) => ⟨.error ⟨multiMsg me.message⟩, out.finalGen, out.calls⟩

/-! ### Helper lemmas -/

/-- Object-literal lookup on `("k", v) :: o` at key `k`: a binding for `k`
inside `o` (spread last) overrides `v`. -/
theorem objGet_cons_self (k : String) (v : JSVal) (o : JSObj) :
    objGet ((k, v) :: o) k = some ((objGet o k).getD v) := by
  rw [objGet]
  cases h : objGet o k <;> simp [h]

/-- When every buffer is decodable, appending them all yields the base pages
followed by each buffer's pages in list order. -/
theorem appendAll_ok (bs : List PDFBuffer) :
    ∀ basePages : List Nat, (∀ b ∈ bs, b.isValid = true) →
      appendAll basePages bs = .ok (basePages ++ (bs.map PDFBuffer.pages).flatten) := by
  induction bs with
  | nil => intro base _; simp [appendAll]
  | cons b bs ih =>
    intro base h
    match b with
    | .valid ps =>
      rw [appendAll, ih (base ++ ps) (fun x hx => h x (List.mem_cons_of_mem _ hx))]
      simp [PDFBuffer.pages]
    | .invalid r =>
      have := h (.invalid r) (List.mem_cons_self _ _)
      simp [PDFBuffer.isValid] at this

/-! ### Claims -/

/-- C3: `mergePDFs` applied to the empty buffer list throws (the
document-editing collaborator has no base document to open), rather than
returning any buffer. -/
theorem mergePDFs_empty_throws :
    (mergePDFs []).1 = .error MergeError.noBaseDocument := rfl

/-- C4: for every path whose read fails with underlying failure `e`,
`fromFile` rethrows an error that wraps `e` — its message is exactly the
wrapping template around `e`, and in particular ends with `e`'s rendering —
and that message contains the literal path. -/
theorem fromFile_error_message_contains_path
    (fs : FS) (p e : String) (g : PDFGenerator) (h : fs p = .error e) :
    ∃ err : GenError, g.fromFile fs p = .error (err, g) ∧
      err.message = fromFileMsg p e ∧
      (∃ s t, err.message = s ++ p ++ t) ∧
      (∃ u, err.message = u ++ e) := by
  refine ⟨⟨fromFileMsg p e⟩, ?_, rfl,
    ⟨"Error reading file at path: \"", "\"\n" ++ e, ?_⟩,
    ⟨"Error reading file at path: \"" ++ p ++ "\"\n", rfl⟩⟩
  · simp [PDFGenerator.fromFile, h]
  · simp [fromFileMsg, String.append_assoc]

/-- Witness for C4 at the spec's own scenario path: the thrown message is
the wrapping of the ENOENT failure and contains both the path and the
underlying failure text. -/
theorem fromFile_error_message_contains_path_witness :
    ∃ err : GenError,
      (PDFGenerator.new).fromFile (fun _ => .error "ENOENT: no such file or directory")
        "/nonexistent/path.html" = .error (err, PDFGenerator.new) ∧
      err.message = fromFileMsg "/nonexistent/path.html" "ENOENT: no such file or directory" ∧
      (∃ s t, err.message = s ++ "/nonexistent/path.html" ++ t) ∧
      (∃ u, err.message = u ++ "ENOENT: no such file or directory") :=
  fromFile_error_message_contains_path
    (fun _ => .error "ENOENT: no such file or directory")
    "/nonexistent/path.html" "ENOENT: no such file or directory" PDFGenerator.new rfl

/-- C10: `fromFile` is atomic on failure: when the read fails, the error
leaves the method with the instance state (content and options) exactly as
it was before the call — `this.data` is assigned only after a successful
read. -/
theorem fromFile_atomic_on_failure
    (fs : FS) (p e : String) (g : PDFGenerator) (h : fs p = .error e) :
    g.fromFile fs p = .error (⟨fromFileMsg p e⟩, g) := by
  simp [PDFGenerator.fromFile, h]

/-- Witness for C10 on a concrete generator with non-default state. -/
theorem fromFile_atomic_on_failure_witness :
    (PDFGenerator.fromContent "<p>old</p>" (PDFGenerator.new "Letter")).fromFile
        (fun _ => .error "EACCES: permission denied") "/secret.html"
      = .error (⟨fromFileMsg "/secret.html" "EACCES: permission denied"⟩,
          PDFGenerator.fromContent "<p>old</p>" (PDFGenerator.new "Letter")) :=
  fromFile_atomic_on_failure (fun _ => .error "EACCES: permission denied")
    "/secret.html" "EACCES: permission denied"
    (PDFGenerator.fromContent "<p>old</p>" (PDFGenerator.new "Letter")) rfl

/-- C8: a freshly constructed generator has empty content and the default
`{ format: "A4" }` options, and `fromContent` / `setPdfOptions` each
overwrite exactly their own field wholesale and return the generator
itself. -/
theorem constructor_defaults_and_wholesale_setters :
    (PDFGenerator.new).data = "" ∧
    (PDFGenerator.new).pdfOptions = { format := some "A4" } ∧
    (∀ g : PDFGenerator, ∀ s : String, g.fromContent s = { g with data := s }) ∧
    (∀ g : PDFGenerator, ∀ o : PDFOptions, g.setPdfOptions o = { g with pdfOptions := o }) :=
  ⟨rfl, rfl, fun _ _ => rfl, fun _ _ => rfl⟩

/-- C9: `mergePDFs` mutates its input array: whenever it returns a merged
buffer, the caller's list has lost its first element (`buffers.shift()`),
so composition does not leave the input unchanged. -/
theorem mergePDFs_mutates_input
    (buffers rest : List PDFBuffer) (r : PDFBuffer)
    (h : mergePDFs buffers = (.ok r, rest)) :
    rest = buffers.tail ∧ rest.length + 1 = buffers.length := by
  match buffers with
  | [] => simp [mergePDFs] at h
  | first :: bs =>
    match first with
    | .invalid raw => simp [mergePDFs] at h
    | .valid basePages =>
      cases happ : appendAll basePages bs with
      | ok allPages =>
        have hm : mergePDFs (PDFBuffer.valid basePages :: bs)
            = (.ok (.valid allPages), bs) := by
          simp [mergePDFs, happ]
        rw [hm] at h
        injection h with h1 h2
        subst h2
        exact ⟨rfl, by simp⟩
      | error e =>
        have hm : mergePDFs (PDFBuffer.valid basePages :: bs) = (.error e, bs) := by
          simp [mergePDFs, happ]
        rw [hm] at h
        simp at h

/-- Witness for C9 on two concrete one-page documents. -/
theorem mergePDFs_mutates_input_witness :
    [PDFBuffer.valid [7]] = [PDFBuffer.valid [3], PDFBuffer.valid [7]].tail ∧
    [PDFBuffer.valid [7]].length + 1 = [PDFBuffer.valid [3], PDFBuffer.valid [7]].length :=
  mergePDFs_mutates_input [PDFBuffer.valid [3], PDFBuffer.valid [7]]
    [PDFBuffer.valid [7]] (PDFBuffer.valid [3, 7]) rfl

/-- C5: on a non-empty list of decodable buffers, `mergePDFs` returns one
document whose page sequence is the base document's pages followed by each
remaining buffer's pages in list order, and whose page count is the sum of
the inputs' page counts. -/
theorem mergePDFs_page_count
    (buffers : List PDFBuffer) (hne : buffers ≠ [])
    (hval : ∀ b ∈ buffers, b.isValid = true) :
    (mergePDFs buffers).1 = .ok (.valid ((buffers.map PDFBuffer.pages).flatten)) ∧
    ((buffers.map PDFBuffer.pages).flatten).length
      = (buffers.map (fun b => b.pages.length)).sum := by
  constructor
  · match buffers with
    | [] => exact absurd rfl hne
    | first :: bs =>
      match first with
      | .invalid raw =>
        have := hval (.invalid raw) (List.mem_cons_self _ _)
        simp [PDFBuffer.isValid] at this
      | .valid basePages =>
        rw [mergePDFs, appendAll_ok bs basePages
          (fun x hx => hval x (List.mem_cons_of_mem _ hx))]
        simp [PDFBuffer.pages]
  · rw [List.length_flatten, List.map_map]
    rfl

/-- Witness for C5: three documents with 2, 1 and 3 pages merge into one
6-page document in source order. -/
theorem mergePDFs_page_count_witness :
    (mergePDFs [PDFBuffer.valid [10, 11], PDFBuffer.valid [20],
        PDFBuffer.valid [30, 31, 32]]).1
      = .ok (.valid [10, 11, 20, 30, 31, 32]) := by
  have h := mergePDFs_page_count
    [PDFBuffer.valid [10, 11], PDFBuffer.valid [20], PDFBuffer.valid [30, 31, 32]]
    (by decide) (by decide)
  exact h.1

/-- A rendering engine whose session launches but whose content loading
rejects — the failing input for C1. -/
def failingContentEngine : Engine :=
  { launch := .ok ()
    newPage := .ok ()
    evaluate := fun _ => .ok ()
    setContent := fun _ => .error "net::ERR_CONNECTION_REFUSED"
    producePdf := fun _ _ _ => .ok (.valid [0])
    close := .ok () }

/-- C1: refuted on the code — when content loading fails after the session
was acquired, `generatePdf` propagates the wrapped error WITHOUT releasing
the session: the catch clause rethrows and there is no `finally`, so
`browser.close()` is never reached on any failure path. -/
theorem generatePdf_leaks_session_on_failure :
    ((PDFGenerator.new).generatePdf failingContentEngine).sessionAcquired = true ∧
    ((PDFGenerator.new).generatePdf failingContentEngine).sessionReleased = false ∧
    ((PDFGenerator.new).generatePdf failingContentEngine).result
      = .error ⟨renderMsg "net::ERR_CONNECTION_REFUSED"⟩ :=
  ⟨rfl, rfl, rfl⟩

/-- Every render invocation traced by the page loop comes from the page spec
at the same position: it was made after a successful intake from some
intermediate state `g0`, with the spec's options and with the parameter
object `{ pageNumber: position, ...spec.props }` for the 1-based position. -/
theorem multiLoop_calls (eng : Engine) (fs : FS) :
    ∀ (specs : List PageSpec) (g : PDFGenerator) (i j : Nat) (call : RenderCall),
      (multiLoop eng fs g i specs).calls[j]? = some call →
      ∃ spec g0 g1, specs[j]? = some spec ∧
        intakeStep fs spec g0 = .ok g1 ∧
        call = ⟨g1.data, spec.pdfOptions.getD {}, pageProps (i + j + 1) spec⟩ := by
  intro specs
  induction specs with
  | nil => intro g i j call h; simp [multiLoop] at h
  | cons spec rest ih =>
    intro g i j call h
    simp only [multiLoop] at h
    rcases hint : intakeStep fs spec g with ⟨e, g'⟩ | g1
    · simp only [hint] at h
      simp at h
    · simp only [hint] at h
      rcases hr : ((g1.setPdfOptions (spec.pdfOptions.getD {})).generatePdf eng
          (pageProps (i + 1) spec)).result with e | buf
      · simp only [hr] at h
        match j with
        | 0 =>
          simp at h
          exact ⟨spec, g, g1, by simp, hint, h.symm⟩
        | j' + 1 => simp at h
      · simp only [hr] at h
        match j with
        | 0 =>
          simp at h
          exact ⟨spec, g, g1, by simp, hint, h.symm⟩
        | j' + 1 =>
          simp only [List.getElem?_cons_succ] at h
          obtain ⟨spec', g0, g1', hget, hint', hc⟩ :=
            ih (g1.setPdfOptions (spec.pdfOptions.getD {})) (i + 1) j' call h
          refine ⟨spec', g0, g1', by simpa using hget, hint', ?_⟩
          rw [hc]
          have harith : i + 1 + j' + 1 = i + (j' + 1) + 1 := by omega
          rw [harith]

/-- Once the page loop has thrown, appending further page specs changes
nothing: the loop never reaches them. -/
theorem multiLoop_error_append (eng : Engine) (fs : FS) :
    ∀ (pd1 : List PageSpec) (g : PDFGenerator) (i : Nat) (m : String),
      (multiLoop eng fs g i pd1).buffers = .error m →
      ∀ pd2, multiLoop eng fs g i (pd1 ++ pd2) = multiLoop eng fs g i pd1 := by
  intro pd1
  induction pd1 with
  | nil => intro g i m h pd2; simp [multiLoop] at h
  | cons spec rest ih =>
    intro g i m h pd2
    simp only [multiLoop, List.cons_append] at h ⊢
    rcases hint : intakeStep fs spec g with ⟨e, g'⟩ | g1
    · simp only [hint]
    · simp only [hint] at h ⊢
      rcases hr : ((g1.setPdfOptions (spec.pdfOptions.getD {})).generatePdf eng
          (pageProps (i + 1) spec)).result with e | buf
      · simp only [hr]
      · simp only [hr] at h ⊢
        have hob : (multiLoop eng fs (g1.setPdfOptions (spec.pdfOptions.getD {}))
            (i + 1) rest).buffers = .error m := by
          rcases hb : (multiLoop eng fs (g1.setPdfOptions (spec.pdfOptions.getD {}))
              (i + 1) rest).buffers with m' | bs
          · rw [hb] at h
            simp only [Except.map] at h
            simp at h
            rw [h]
          · rw [hb] at h
            simp only [Except.map] at h
            simp at h
        simp only [List.append_eq]
        rw [ih (g1.setPdfOptions (spec.pdfOptions.getD {})) (i + 1) m hob pd2]

/-- The render-invocation trace of `generateMultiPagePdf` is exactly the
page loop's trace, whatever the final merge does. -/
theorem generateMultiPagePdf_calls (eng : Engine) (fs : FS) (g : PDFGenerator)
    (pd : List PageSpec) :
    (g.generateMultiPagePdf eng fs pd).calls = (multiLoop eng fs g 0 pd).calls := by
  unfold PDFGenerator.generateMultiPagePdf
  cases hb : (multiLoop eng fs g 0 pd).buffers with
  | error m => simp [hb]
  | ok bufs =>
    rcases hm : mergePDFs bufs with ⟨res, rem⟩
    cases res <;> simp [hb, hm]

/-- C2: the page at 1-based index `i` of `generateMultiPagePdf` is rendered
with the parameter object `{ pageNumber: i, ...spec.props }`: its
`pageNumber` is `i` unless the spec's own params carry a `pageNumber` key,
whose value then takes precedence (spread after, last write wins). -/
theorem multiPage_pageNumber_param
    (eng : Engine) (fs : FS) (g : PDFGenerator) (pageData : List PageSpec)
    (j : Nat) (spec : PageSpec) (call : RenderCall)
    (hspec : pageData[j]? = some spec)
    (hcall : (g.generateMultiPagePdf eng fs pageData).calls[j]? = some call) :
    call.props = ("pageNumber", JSVal.num (j + 1)) :: spec.props ∧
    objGet call.props "pageNumber"
      = some ((objGet spec.props "pageNumber").getD (JSVal.num (j + 1))) := by
  rw [generateMultiPagePdf_calls] at hcall
  obtain ⟨spec', g0, g1, hget, hint, hc⟩ :=
    multiLoop_calls eng fs pageData g 0 j call hcall
  rw [hspec] at hget
  injection hget with hspec'
  subst hspec'
  have hprops : call.props = ("pageNumber", JSVal.num (j + 1)) :: spec.props := by
    rw [hc]
    simp [pageProps, Nat.zero_add]
  exact ⟨hprops, by rw [hprops, objGet_cons_self]⟩

/-- A rendering engine for which every step succeeds; the produced document
has one page identified by the loaded content's length. -/
def okEngine : Engine :=
  { launch := .ok ()
    newPage := .ok ()
    evaluate := fun _ => .ok ()
    setContent := fun _ => .ok ()
    producePdf := fun content _ _ => .ok (.valid [content.length])
    close := .ok () }

/-- A filesystem with a single readable file `/tpl.html`. -/
def witnessFS : FS := fun p =>
  if p = "/tpl.html" then .ok "<h1>tpl</h1>"
  else .error "ENOENT: no such file or directory"

/-- First page spec of the C2 scenario: plain content, no params. -/
def specA : PageSpec := { content := some "<h1>A</h1>" }

/-- Second page spec of the C2 scenario: its params carry their own
`pageNumber` key (99) plus an unrelated key. -/
def specB : PageSpec :=
  { content := some "<h1>B</h1>"
    props := [("pageNumber", JSVal.num 99), ("copies", JSVal.num 2)] }

/-- Page spec supplying both a literal content string and a template path. -/
def specT : PageSpec :=
  { content := some "<p>literal</p>", templatePath := some "/tpl.html" }

/-- Page spec whose template path does not exist on `witnessFS`. -/
def specMissing : PageSpec := { templatePath := some "/missing.html" }

/-- The render invocation observed for `specB` as the second page. -/
def callB : RenderCall :=
  ⟨"<h1>B</h1>", {}, ("pageNumber", JSVal.num 2) :: specB.props⟩

/-- The render invocation observed for `specT` as the only page. -/
def callT : RenderCall := ⟨"<h1>tpl</h1>", {}, pageProps 1 specT⟩

/-- Witness for C2: in `generateMultiPagePdf [specA, specB]` the second
render sees `pageNumber = 99`, the value from `specB`'s own params. -/
theorem multiPage_pageNumber_param_witness :
    callB.props = ("pageNumber", JSVal.num 2) :: specB.props ∧
    objGet callB.props "pageNumber" = some (JSVal.num 99) := by
  have h := multiPage_pageNumber_param okEngine witnessFS PDFGenerator.new
    [specA, specB] 1 specB callB rfl rfl
  exact ⟨h.1, h.2.trans (by decide)⟩

/-- C6: when the page loop throws on some page, the whole operation fails
with the wrapping multi-page error around that first failure's message;
page specs beyond the failing one are never rendered (the trace and final
state ignore them entirely) and no buffer is returned. -/
theorem multiPage_first_failure_aborts
    (eng : Engine) (fs : FS) (g : PDFGenerator) (pd1 pd2 : List PageSpec) (m : String)
    (h : (multiLoop eng fs g 0 pd1).buffers = .error m) :
    (g.generateMultiPagePdf eng fs (pd1 ++ pd2)).result = .error ⟨multiMsg m⟩ ∧
    (g.generateMultiPagePdf eng fs (pd1 ++ pd2)).calls
      = (multiLoop eng fs g 0 pd1).calls ∧
    (g.generateMultiPagePdf eng fs (pd1 ++ pd2)).finalGen
      = (multiLoop eng fs g 0 pd1).finalGen := by
  have hext := multiLoop_error_append eng fs pd1 g 0 m h pd2
  unfold PDFGenerator.generateMultiPagePdf
  rw [hext]
  simp [h]

/-- Witness for C6: a missing template on page 1 aborts the job before the
second page is rendered, and the thrown error wraps the read failure. -/
theorem multiPage_first_failure_aborts_witness :
    (PDFGenerator.new.generateMultiPagePdf okEngine witnessFS
        ([specMissing] ++ [specB])).result
      = .error ⟨multiMsg (fromFileMsg "/missing.html"
          "ENOENT: no such file or directory")⟩ ∧
    (PDFGenerator.new.generateMultiPagePdf okEngine witnessFS
        ([specMissing] ++ [specB])).calls
      = (multiLoop okEngine witnessFS PDFGenerator.new 0 [specMissing]).calls := by
  have h := multiPage_first_failure_aborts okEngine witnessFS PDFGenerator.new
    [specMissing] [specB]
    (fromFileMsg "/missing.html" "ENOENT: no such file or directory") rfl
  exact ⟨h.1, h.2.1⟩

/-- C7: a page spec carrying both a content string and a (truthy) template
path is rendered from the file: the file's text is the content the render
invocation loads, the literal string playing no role. -/
theorem multiPage_templatePath_wins
    (eng : Engine) (fs : FS) (g : PDFGenerator) (pageData : List PageSpec)
    (j : Nat) (spec : PageSpec) (call : RenderCall) (p c s : String)
    (hspec : pageData[j]? = some spec)
    (htp : spec.templatePath = some p)
    (hne : p.isEmpty = false)
    (_hcontent : spec.content = some s)
    (hfs : fs p = .ok c)
    (hcall : (g.generateMultiPagePdf eng fs pageData).calls[j]? = some call) :
    call.content = c := by
  rw [generateMultiPagePdf_calls] at hcall
  obtain ⟨spec', g0, g1, hget, hint, hc⟩ :=
    multiLoop_calls eng fs pageData g 0 j call hcall
  rw [hspec] at hget
  injection hget with hspec'
  subst hspec'
  unfold intakeStep at hint
  rw [htp] at hint
  simp only [truthyStr, hne, Bool.not_false, if_true, Option.getD_some] at hint
  unfold PDFGenerator.fromFile at hint
  rw [hfs] at hint
  injection hint with hint'
  rw [hc]
  rw [← hint']

/-- Witness for C7: `specT` supplies both `content` and `templatePath`; the
observed render content is the text of `/tpl.html`, not the literal. -/
theorem multiPage_templatePath_wins_witness :
    (PDFGenerator.new.generateMultiPagePdf okEngine witnessFS [specT]).calls[0]?
      = some callT ∧
    callT.content = "<h1>tpl</h1>" :=
  ⟨rfl, multiPage_templatePath_wins okEngine witnessFS PDFGenerator.new [specT]
    0 specT callT "/tpl.html" "<h1>tpl</h1>" "<p>literal</p>" rfl rfl rfl rfl rfl rfl⟩

end PDFKit
